import Mathlib

/-!
Shallow embedding of the td2-map track parser (`src/parse.rs`,
`src/track_structures.rs`) and proofs about its specification claims.

Scalars are modelled as rationals (`ℚ`).  The repository's `math.rs`
module (declared in `main.rs` but not present under `src/`) as well as
external library functions (`f32::atan`, `f32::sqrt`, `str::parse`,
`bezier_nd::Bezier::length`, glam trigonometry) are modelled abstractly
through a `MathModel` record; every definition translated from
`parse.rs` is parametric in that record.

Rust panics (`assert!`, `panic!`, out-of-bounds indexing) and recoverable
`anyhow` errors (`ensure!`, `bail!`, `?`) are modelled by `Except Err`
with two distinguishable error severities.
-/

namespace Td2

/-- 3D vector with rational components (models `glam::Vec3`). -/
structure Vec3 where
  x : ℚ
  y : ℚ
  z : ℚ
deriving DecidableEq, Repr

namespace Vec3

def add (a b : Vec3) : Vec3 := ⟨a.x + b.x, a.y + b.y, a.z + b.z⟩

def sub (a b : Vec3) : Vec3 := ⟨a.x - b.x, a.y - b.y, a.z - b.z⟩

def smul (q : ℚ) (a : Vec3) : Vec3 := ⟨q * a.x, q * a.y, q * a.z⟩

/-- `Vec3::Z`, the local forward axis. -/
def Z : Vec3 := ⟨0, 0, 1⟩

/-- Squared Euclidean norm (`Vec3::length_squared`). -/
def lengthSq (a : Vec3) : ℚ := a.x * a.x + a.y * a.y + a.z * a.z

end Vec3

/-- Squared distance of the planar (x,z) projections
(`(a.xz() - b.xz()).length_squared()` in `find_failed_connections`). -/
def sqDistXZ (a b : Vec3) : ℚ :=
  (a.x - b.x) * (a.x - b.x) + (a.z - b.z) * (a.z - b.z)

/-- Column-major 3x3 matrix (models `glam::Mat3`). -/
structure Mat3 where
  xAxis : Vec3
  yAxis : Vec3
  zAxis : Vec3
deriving DecidableEq, Repr

namespace Mat3

def identity : Mat3 := ⟨⟨1, 0, 0⟩, ⟨0, 1, 0⟩, ⟨0, 0, 1⟩⟩

/-- Matrix-vector product (`Mat3 * Vec3`). -/
def mulVec (m : Mat3) (v : Vec3) : Vec3 :=
  (Vec3.smul v.x m.xAxis).add ((Vec3.smul v.y m.yAxis).add (Vec3.smul v.z m.zAxis))

/-- Matrix-matrix product (`Mat3 * Mat3`). -/
def mul (m n : Mat3) : Mat3 :=
  ⟨m.mulVec n.xAxis, m.mulVec n.yAxis, m.mulVec n.zAxis⟩

/-- Matrix-scalar product (`Mat3 * f32`). -/
def scale (m : Mat3) (q : ℚ) : Mat3 :=
  ⟨Vec3.smul q m.xAxis, Vec3.smul q m.yAxis, Vec3.smul q m.zAxis⟩

end Mat3

/-- `Checkpoint`: a point with a rotation (`parse.rs`). -/
structure Checkpoint where
  pos : Vec3
  rotation : Mat3
deriving DecidableEq, Repr

/-- Abstract model of the numeric functions the embedded code consumes:
the missing `math.rs` module's `RotatedCircle::move_by_angle`, the
float functions from `std`/`glam` (`atan`, `cos`, `sin`, `sqrt`,
`to_radians`, `PI`), `bezier_nd` arc length, and `str::parse` for `f32`
and `i32`.  All claims proved below hold for every such model. -/
structure MathModel where
  cos : ℚ → ℚ
  sin : ℚ → ℚ
  atan : ℚ → ℚ
  sqrt : ℚ → ℚ
  toRadians : ℚ → ℚ
  pi : ℚ
  /-- Modelled from the spec: `RotatedCircle` "derives: pose after
  sweeping a given arc angle from a given start position, using
  closed-form trigonometry" (`math.rs` is not under `src/`).
  Arguments: signed radius, reference rotation, start position, angle. -/
  moveByAngle : ℚ → Mat3 → Vec3 → ℚ → Checkpoint
  bezierLength : Vec3 → Vec3 → Vec3 → Vec3 → ℚ
  parseFloat : String → Option ℚ
  parseInt : String → Option Int

/-- Euclidean norm via the model's square root (`Vec3::length`). -/
def Vec3.length (M : MathModel) (a : Vec3) : ℚ := M.sqrt a.lengthSq

/-- `glam::Mat3::from_rotation_x`. -/
def Mat3.fromRotationX (M : MathModel) (a : ℚ) : Mat3 :=
  ⟨⟨1, 0, 0⟩, ⟨0, M.cos a, M.sin a⟩, ⟨0, -M.sin a, M.cos a⟩⟩

/-- `glam::Mat3::from_rotation_y`. -/
def Mat3.fromRotationY (M : MathModel) (a : ℚ) : Mat3 :=
  ⟨⟨M.cos a, 0, -M.sin a⟩, ⟨0, 1, 0⟩, ⟨M.sin a, 0, M.cos a⟩⟩

/-- `glam::Mat3::from_rotation_z`. -/
def Mat3.fromRotationZ (M : MathModel) (a : ℚ) : Mat3 :=
  ⟨⟨M.cos a, M.sin a, 0⟩, ⟨-M.sin a, M.cos a, 0⟩, ⟨0, 0, 1⟩⟩

/-- `Checkpoint::rotate`: rotate by an angle around the Y axis, before
applying `self.rotation`. -/
def Checkpoint.rotate (M : MathModel) (c : Checkpoint) (angle : ℚ) : Checkpoint :=
  ⟨c.pos, c.rotation.mul (Mat3.fromRotationY M angle)⟩

/-- Modelled from the spec: `RotatedCircle` (from the missing `math.rs`)
stores a "signed radius ... + the rotation at the circle's reference
point" (spec §3). -/
structure RotatedCircle where
  radius : ℚ
  rotation : Mat3
deriving DecidableEq, Repr

namespace RotatedCircle

/-- `RotatedCircle::new(radius, rotation)`. -/
def new (radius : ℚ) (rotation : Mat3) : RotatedCircle := ⟨radius, rotation⟩

/-- Modelled from the spec: pose after sweeping an arc angle from a
start position (spec §4.1 `poseAtAngle`); delegates to the abstract
model. -/
def move_by_angle (M : MathModel) (c : RotatedCircle) (pos : Vec3) (angle : ℚ) : Checkpoint :=
  M.moveByAngle c.radius c.rotation pos angle

/-- Modelled from the spec: the rotation at the circle's reference
point, i.e. the rotation the circle was constructed with. -/
def start_rotation (c : RotatedCircle) : Mat3 := c.rotation

end RotatedCircle

/-- Error severities: `failure` models recoverable `anyhow` errors
(`ensure!`/`bail!`/`?`), `panicked` models Rust panics (`assert!`,
`panic!`, out-of-bounds indexing), which the parser's per-row catch
does not recover from. -/
inductive Err where
  | failure (msg : String)
  | panicked (msg : String)
deriving DecidableEq, Repr

/-- `true` exactly for the recoverable (`anyhow`) severity. -/
def Err.isRecoverable : Err → Bool
  | .failure _ => true
  | .panicked _ => false

/-- `TrackShape` (`parse.rs`). Constructor names follow the Rust enum
variants; the `Straight` end field is `end_pos`, the `Arc` end field is
a full checkpoint (`end` is a Lean keyword, so accessors are named
`startCP`/`endCP`). -/
inductive TrackShape where
  | Straight (start : Checkpoint) (end_pos : Vec3) (length : ℚ)
  | Arc (start_pos : Vec3) (endcp : Checkpoint) (length : ℚ) (angle : ℚ)
      (rotated_circle : RotatedCircle)
  | Bezier (start_pos control1 control2 end_pos : Vec3) (length : ℚ)
  | Point (p : Checkpoint)
deriving DecidableEq, Repr

namespace TrackShape

/-- `TrackShape::straight`; the `assert!(length >= 0.0)` is a panic. -/
def straight (start : Checkpoint) (length : ℚ) : Except Err TrackShape :=
  if 0 ≤ length then
    .ok (.Straight start (start.pos.add ((start.rotation.scale length).mulVec Vec3.Z)) length)
  else
    .error (.panicked "Length must be non-negative")

/-- `TrackShape::straight_around_point`; note that the source stores
`start_offset` in the `length` field (the local variable `length =
end_offset - start_offset` is computed, asserted on, and then not
stored). -/
def straight_around_point (point : Checkpoint) (start_offset end_offset : ℚ) :
    Except Err TrackShape :=
  let length := end_offset - start_offset
  if 0 ≤ length then
    .ok (.Straight
      ⟨point.pos.add ((point.rotation.scale start_offset).mulVec Vec3.Z), point.rotation⟩
      (point.pos.add ((point.rotation.scale end_offset).mulVec Vec3.Z))
      start_offset)
  else
    .error (.panicked "end_offset must be greater than start_offset")

/-- `TrackShape::straight_between`. -/
def straight_between (M : MathModel) (start_pos end_pos : Vec3) (rotation : Mat3) :
    TrackShape :=
  .Straight ⟨start_pos, rotation⟩ end_pos ((end_pos.sub start_pos).length M)

/-- `TrackShape::arc`. -/
def arc (M : MathModel) (start : Checkpoint) (radius angle length : ℚ) : TrackShape :=
  let rotated_circle := RotatedCircle.new radius start.rotation
  let endcp := rotated_circle.move_by_angle M start.pos angle
  .Arc start.pos endcp length angle rotated_circle

/-- `TrackShape::arc_or_straight`. -/
def arc_or_straight (M : MathModel) (start : Checkpoint) (radius length : ℚ) :
    Except Err TrackShape :=
  if radius = 0 then
    straight start length
  else
    .ok (arc M start radius (length / |radius|) length)

/-- `TrackShape::bezier`; the `bezier_nd` arc length is abstract. -/
def bezier (M : MathModel) (start_pos control1 control2 end_pos : Vec3) : TrackShape :=
  .Bezier start_pos control1 control2 end_pos (M.bezierLength start_pos control1 control2 end_pos)

/-- `TrackShape::point`. -/
def point (p : Checkpoint) : TrackShape := .Point p

/-- `TrackShape::start`. -/
def startCP (M : MathModel) : TrackShape → Checkpoint
  | .Straight start _ _ => start
  | .Arc start_pos _ _ _ rc => ⟨start_pos, rc.start_rotation⟩
  | .Bezier start_pos _ _ _ _ => ⟨start_pos, Mat3.identity⟩
  | .Point p => p

/-- `TrackShape::end`. -/
def endCP (M : MathModel) : TrackShape → Checkpoint
  | .Straight start end_pos _ => ⟨end_pos, start.rotation⟩
  | .Arc start_pos _ _ angle rc => rc.move_by_angle M start_pos angle
  | .Bezier _ _ _ end_pos _ => ⟨end_pos, Mat3.identity⟩
  | .Point p => p

/-- `TrackShape::lowest_y`. -/
def lowest_y (M : MathModel) (s : TrackShape) : ℚ :=
  min (s.startCP M).pos.y (s.endCP M).pos.y

end TrackShape

/-- `NextIds`: zero, one or two successor ids. -/
inductive NextIds where
  | none
  | one (id : Int)
  | two (id1 id2 : Int)
deriving DecidableEq, Repr

/-- Number of successor ids stored. -/
def NextIds.size : NextIds → Nat
  | .none => 0
  | .one _ => 1
  | .two _ _ => 2

/-- Whether an id occurs among the successor ids. -/
def NextIds.mem (n : NextIds) (i : Int) : Bool :=
  match n with
  | .none => false
  | .one a => a == i
  | .two a b => a == i || b == i

/-- `TrackIds` (`parse.rs`): own id, optional predecessor, successors. -/
structure TrackIds where
  own : Int
  prev : Option Int
  next : NextIds
deriving DecidableEq, Repr

namespace TrackIds

def with_prev (t : TrackIds) (id : Int) : TrackIds := { t with prev := some id }

def with_one_next (t : TrackIds) (id : Int) : TrackIds := { t with next := .one id }

def with_two_next (t : TrackIds) (id1 id2 : Int) : TrackIds :=
  { t with next := .two id1 id2 }

/-- The panic message of `TrackIds::add_next`'s third-successor branch. -/
def addNextPanicMsg : String := "add_next called on TracksIds with two next ids already set"

/-- `TrackIds::add_next`; adding to a two-element successor set panics. -/
def add_next (t : TrackIds) (id : Int) : Except Err TrackIds :=
  match t.next with
  | .none => .ok { t with next := .one id }
  | .one id1 => .ok { t with next := .two id1 id }
  | .two _ _ => .error (.panicked addNextPanicMsg)

/-- `TrackIds::parse`: own is parsed as `i32`, empty prev/next cells
give no link. -/
def parse (M : MathModel) (own prev next : String) : Except Err TrackIds := do
  let own ← match M.parseInt own with
    | some v => Except.ok v
    | none => Except.error (Err.failure "invalid own id")
  let prev ← if prev.isEmpty then pure Option.none else
    match M.parseInt prev with
    | some v => Except.ok (some v)
    | none => Except.error (Err.failure "invalid prev id")
  let next ← if next.isEmpty then pure NextIds.none else
    match M.parseInt next with
    | some v => Except.ok (NextIds.one v)
    | none => Except.error (Err.failure "invalid next id")
  .ok ⟨own, prev, next⟩

end TrackIds

/-- `Track` (`parse.rs`). -/
structure Track where
  ids : TrackIds
  shape : TrackShape
  end_for_structure : Option String
deriving DecidableEq, Repr

namespace Track

def new (ids : TrackIds) (shape : TrackShape) : Track := ⟨ids, shape, none⟩

def new_structure_end (ids : TrackIds) (shape : TrackShape) (name : String) : Track :=
  ⟨ids, shape, some name⟩

end Track

/-- Whether a track's ids reference the given id as predecessor or
successor. -/
def Track.refsId (t : Track) (i : Int) : Bool :=
  t.ids.prev == some i || t.ids.next.mem i

/-- `Switch` (`parse.rs`). -/
structure Switch where
  id : Int
  tracks : List Track
deriving DecidableEq, Repr

/-- `FailedConnection` diagnostic (`parse.rs`). -/
structure FailedConnection where
  pos1 : Vec3
  pos2 : Vec3
  track1 : Track
  track2 : Track
deriving DecidableEq, Repr

/-- `ParseResult` (`parse.rs`): the id→index `HashMap` is modelled as a
lookup function. -/
structure ParseResult where
  tracks : List Track
  track_indexes : Int → Option Nat
  failed_connections : List FailedConnection

/-- `ForkSwitch` catalog record (`track_structures.rs`). -/
structure ForkSwitch where
  radius_1 : ℚ
  radius_2 : ℚ
  curve_length : ℚ
  tangent_inv : ℚ
  added_length : ℚ
deriving DecidableEq, Repr

/-- `SlipSwitch` catalog record (`track_structures.rs`). -/
structure SlipSwitch where
  total_length : ℚ
  outer_length : ℚ
  transition_length : ℚ
  radius : ℚ
  tangent_inv : ℚ
  left_slip : Bool
  right_slip : Bool
deriving DecidableEq, Repr

/-- `Crossing` catalog record (`track_structures.rs`). -/
structure Crossing where
  length : ℚ
  tangent_inv : ℚ
deriving DecidableEq, Repr

/-- `TrackStructure` (`track_structures.rs`). -/
inductive TrackStructure where
  | fork (f : ForkSwitch)
  | slip (s : SlipSwitch)
  | crossing (c : Crossing)
deriving DecidableEq, Repr

/-- `build_fork_switch` (`parse.rs`). -/
def build_fork_switch (M : MathModel) (start : Checkpoint) (fork : ForkSwitch)
    (subtracks : List TrackIds) (structure_name : String) : Except Err (List Track) :=
  if subtracks.length < 5 then
    .error (.failure "Fork switch must have at least 5 subtracks")
  else match subtracks with
  | start_id0 :: first_curve_id0 :: second_curve_id0 :: rest => do
    let (first_end_id, second_end_id, extra_ids) ←
      if 0 < fork.added_length then
        if subtracks.length = 7 then
          match rest with
          | [fx, sx, fe, se] => Except.ok (fe, se, some (fx, sx))
          | _ => Except.error (Err.panicked "Failed to match subtrack IDs")
        else
          Except.error (Err.failure "Fork switch with added length must have exactly 7 subtracks")
      else
        if subtracks.length = 5 then
          match rest with
          | [se, fe] => Except.ok (fe, se, (none : Option (TrackIds × TrackIds)))
          | _ => Except.error (Err.panicked "Failed to match subtrack IDs")
        else
          Except.error (Err.failure "Fork switch without added length must have exactly 5 subtracks")
    let (first_after_curve_id, second_after_curve_id) :=
      match extra_ids with
      | some (fx, sx) => (fx.own, sx.own)
      | none => (first_end_id.own, second_end_id.own)
    let start_id := start_id0.with_two_next first_curve_id0.own second_curve_id0.own
    let first_curve_id := (first_curve_id0.with_prev start_id.own).with_one_next first_after_curve_id
    let second_curve_id := (second_curve_id0.with_prev start_id.own).with_one_next second_after_curve_id
    let start_shape := TrackShape.point start
    let first_curve_shape ← TrackShape.arc_or_straight M start fork.radius_1 fork.curve_length
    let first_current_end := first_curve_shape.endCP M
    let first_current_end_id := first_curve_id.own
    let second_curve_shape ← TrackShape.arc_or_straight M start fork.radius_2 fork.curve_length
    let second_current_end := second_curve_shape.endCP M
    let second_current_end_id := second_curve_id.own
    let tracks := [Track.new start_id start_shape,
      Track.new first_curve_id first_curve_shape,
      Track.new second_curve_id second_curve_shape]
    match extra_ids with
    | some (fx, sx) => do
      let first_extra_shape ← TrackShape.straight first_current_end fork.added_length
      let second_extra_shape ← TrackShape.straight second_current_end fork.added_length
      let first_current_end2 := first_extra_shape.endCP M
      let second_current_end2 := second_extra_shape.endCP M
      let tracks := tracks ++
        [Track.new ((fx.with_prev first_current_end_id).with_one_next first_end_id.own) first_extra_shape,
         Track.new ((sx.with_prev second_current_end_id).with_one_next second_end_id.own) second_extra_shape]
      Except.ok (tracks ++
        [Track.new_structure_end (first_end_id.with_prev fx.own)
          (TrackShape.point first_current_end2) structure_name,
         Track.new_structure_end (second_end_id.with_prev sx.own)
          (TrackShape.point second_current_end2) structure_name])
    | none =>
      Except.ok (tracks ++
        [Track.new_structure_end (first_end_id.with_prev first_current_end_id)
          (TrackShape.point first_current_end) structure_name,
         Track.new_structure_end (second_end_id.with_prev second_current_end_id)
          (TrackShape.point second_current_end) structure_name])
  | _ => .error (.panicked "Failed to match subtrack IDs")

/-- `build_crossing` (`parse.rs`). -/
def build_crossing (M : MathModel) (start : Checkpoint) (crossing : Crossing)
    (subtracks : List TrackIds) (structure_name : String) : Except Err (List Track) :=
  match subtracks with
  | [s0, s1] => do
    let half_angle := M.atan (1 / crossing.tangent_inv) / 2
    let half_length := crossing.length / 2
    let bd_start : Checkpoint := ⟨start.pos, start.rotation.mul (Mat3.fromRotationY M (-half_angle))⟩
    let ac_start : Checkpoint := ⟨start.pos, start.rotation.mul (Mat3.fromRotationY M half_angle)⟩
    let shape_bd ← TrackShape.straight_around_point bd_start (-half_length) half_length
    let shape_ac ← TrackShape.straight_around_point ac_start (-half_length) half_length
    Except.ok [Track.new_structure_end s0 shape_ac structure_name,
      Track.new_structure_end s1 shape_bd structure_name]
  | _ => .error (.failure "Crossing must have exactly two subtracks")

/-- The five tracks of one slip-switch through path (Rust `[Track; 5]`). -/
structure Path5 where
  t0 : Track
  t1 : Track
  t2 : Track
  t3 : Track
  t4 : Track
deriving DecidableEq, Repr

def Path5.toList (p : Path5) : List Track := [p.t0, p.t1, p.t2, p.t3, p.t4]

/-- Panic message modelling Rust slice indexing out of bounds. -/
def idxGetMsg : String := "index out of bounds"

/-- Rust `subtracks[i]`: panics when out of range. -/
def idxGet (l : List TrackIds) (i : Nat) : Except Err TrackIds :=
  match l.get? i with
  | some x => .ok x
  | none => .error (.panicked idxGetMsg)

/-- Panic message modelling `Vec::remove` out of bounds. -/
def removeMsg : String := "removal index out of bounds"

/-- Rust `Vec::remove(i)`: returns the removed element and the
remaining list, panicking when out of range. -/
def removeAt (l : List TrackIds) (i : Nat) : Except Err (TrackIds × List TrackIds) :=
  match l.get? i with
  | some x => .ok (x, l.eraseIdx i)
  | none => .error (.panicked removeMsg)

/-- The `build_straight_path` closure inside `build_slip_switch`. -/
def build_straight_path (M : MathModel) (structure_name : String)
    (subtracks : List TrackIds) (out_half_length transition_begin transition_end : ℚ)
    (center center_rev : Checkpoint)
    (enter_outer_index enter_transition_index crossing_index
     exit_transition_index exit_outer_index : Nat) : Except Err Path5 := do
  let enter_outer_ids0 ← idxGet subtracks enter_outer_index
  let exit_outer_ids0 ← idxGet subtracks exit_outer_index
  let enter_transition_ids0 ← idxGet subtracks enter_transition_index
  let exit_transition_ids0 ← idxGet subtracks exit_transition_index
  let enter_transition_ids := enter_transition_ids0.with_prev enter_outer_ids0.own
  let exit_transition_ids := exit_transition_ids0.with_prev exit_outer_ids0.own
  let enter_outer_ids := enter_outer_ids0.with_one_next enter_transition_ids.own
  let exit_outer_ids := exit_outer_ids0.with_one_next exit_transition_ids.own
  let crossing_ids0 ← idxGet subtracks crossing_index
  let crossing_ids := (crossing_ids0.with_prev enter_transition_ids.own).with_one_next exit_transition_ids.own
  let enter_transition_ids := enter_transition_ids.with_one_next crossing_ids.own
  let exit_transition_ids := exit_transition_ids.with_one_next crossing_ids.own
  let s0 ← TrackShape.straight_around_point center (-out_half_length) (-transition_begin)
  let s1 ← TrackShape.straight_around_point center (-transition_begin) (-transition_end)
  let s2 ← TrackShape.straight_around_point center (-transition_end) transition_end
  let s3 ← TrackShape.straight_around_point center_rev (-transition_begin) (-transition_end)
  let s4 ← TrackShape.straight_around_point center_rev (-out_half_length) (-transition_begin)
  Except.ok ⟨Track.new_structure_end enter_outer_ids s0 structure_name,
    Track.new enter_transition_ids s1,
    Track.new crossing_ids s2,
    Track.new exit_transition_ids s3,
    Track.new_structure_end exit_outer_ids s4 structure_name⟩

/-- The `build_slip` closure inside `build_slip_switch`: splices a
diagonal between the two through paths, or produces the unusable
center placeholder. Returns the new tracks and the (possibly mutated)
enter and exit paths. -/
def build_slip (M : MathModel) (slip : SlipSwitch) (curve_length : ℚ)
    (startRotation : Mat3) (subtracks : List TrackIds) (center_index : Nat)
    (slip_ids : Option (TrackIds × TrackIds)) (enter_path exit_path : Path5)
    (neg_radius : Bool) : Except Err (List Track × Path5 × Path5) := do
  let center_ids ← idxGet subtracks center_index
  match slip_ids with
  | some (enter_ids0, exit_ids0) => do
    let radius := if neg_radius then -slip.radius else slip.radius
    let enter_curve ← TrackShape.arc_or_straight M (enter_path.t0.shape.endCP M) radius slip.transition_length
    let center_curve ← TrackShape.arc_or_straight M (enter_curve.endCP M) radius (curve_length - 2 * slip.transition_length)
    let exit_curve ← TrackShape.arc_or_straight M (center_curve.endCP M) radius slip.transition_length
    let enter_ids := (enter_ids0.with_prev enter_path.t0.ids.own).with_one_next center_ids.own
    let exit_ids := (exit_ids0.with_prev center_ids.own).with_one_next exit_path.t4.ids.own
    let newEnterIds ← enter_path.t0.ids.add_next enter_ids.own
    let newExitIds ← exit_path.t4.ids.add_next exit_ids.own
    let enter_path := { enter_path with t0 := { enter_path.t0 with ids := newEnterIds } }
    let exit_path := { exit_path with t4 := { exit_path.t4 with ids := newExitIds } }
    let center_ids := (center_ids.with_prev enter_ids.own).with_one_next exit_ids.own
    Except.ok ([Track.new enter_ids enter_curve,
      Track.new center_ids center_curve,
      Track.new exit_ids exit_curve], enter_path, exit_path)
  | none =>
    -- Don't add prev or next, this track is not usable
    Except.ok ([Track.new center_ids
      (TrackShape.straight_between M (enter_path.t1.shape.endCP M).pos
        (exit_path.t3.shape.endCP M).pos startRotation)], enter_path, exit_path)

/-- The slip-id removal step of `build_slip_switch` (the `match
(slip.left_slip, slip.right_slip)` with its `Vec::remove` calls). -/
def slip_removals (slip : SlipSwitch) (subtracks0 : List TrackIds) :
    Except Err (Option (TrackIds × TrackIds) × Option (TrackIds × TrackIds) × List TrackIds) :=
  match slip.left_slip, slip.right_slip with
  | false, false =>
    Except.ok ((none : Option (TrackIds × TrackIds)), (none : Option (TrackIds × TrackIds)), subtracks0)
  | false, true => do
    let (ex, s1) ← removeAt subtracks0 13
    let (en, s2) ← removeAt s1 6
    Except.ok (none, some (en, ex), s2)
  | true, false => do
    let (ex, s1) ← removeAt subtracks0 13
    let (en, s2) ← removeAt s1 6
    Except.ok (some (en, ex), none, s2)
  | true, true => do
    let (second_exit, s1) ← removeAt subtracks0 15
    let (first_exit, s2) ← removeAt s1 14
    let (second_enter, s3) ← removeAt s2 7
    let (first_enter, s4) ← removeAt s3 6
    Except.ok (some (first_enter, first_exit), some (second_enter, second_exit), s4)

/-- `build_slip_switch` (`parse.rs`). -/
def build_slip_switch (M : MathModel) (start : Checkpoint) (slip : SlipSwitch)
    (subtracks0 : List TrackIds) (structure_name : String) : Except Err (List Track) := do
  let angle := M.atan (1 / slip.tangent_inv)
  let half_angle := angle / 2
  let out_half_length := slip.total_length / 2
  let curve_length := slip.radius * angle
  let required_cound : Nat := 12 + (if slip.left_slip then 2 else 0) + (if slip.right_slip then 2 else 0)
  if subtracks0.length = required_cound then do
    let first_center := start.rotate M half_angle
    let first_center_rev := start.rotate M (half_angle + M.pi)
    let second_center := start.rotate M (-half_angle)
    let second_center_rev := start.rotate M (-half_angle + M.pi)
    let (left_slip_ids, right_slip_ids, subtracks) ← slip_removals slip subtracks0
    let transition_begin := out_half_length - slip.outer_length
    let transition_end := transition_begin - slip.transition_length
    let first_path ← build_straight_path M structure_name subtracks out_half_length
      transition_begin transition_end first_center first_center_rev 0 4 6 10 2
    let second_path ← build_straight_path M structure_name subtracks out_half_length
      transition_begin transition_end second_center second_center_rev 1 5 7 11 3
    let (left_tracks, first_path, second_path) ←
      build_slip M slip curve_length start.rotation subtracks 8 left_slip_ids first_path second_path false
    let (right_tracks, second_path, first_path) ←
      build_slip M slip curve_length start.rotation subtracks 9 right_slip_ids second_path first_path true
    Except.ok (left_tracks ++ right_tracks ++ first_path.toList ++ second_path.toList)
  else
    .error (.failure "This slip switch must exactly at least N subtracks")

/-- The `check_neighbour` closure inside `find_failed_connections`:
the connections it pushes for one declared link. An id absent from the
index map is skipped silently; a stored index that is out of range of
the track list is unreachable in `parse` (the map only stores valid
indexes) and is modelled as skipping too. -/
def checkNeighbour (M : MathModel) (tracks : List Track)
    (track_indexes : Int → Option Nat) (track : Track) (id : Int) (pos : Vec3) :
    List FailedConnection :=
  match track_indexes id with
  | none => []
  | some other_index =>
    match tracks.get? other_index with
    | none => []
    | some other =>
      let dist_min := ((other.shape.startCP M).pos, sqDistXZ (other.shape.startCP M).pos pos)
      let dist_max := ((other.shape.endCP M).pos, sqDistXZ (other.shape.endCP M).pos pos)
      let dmin := if dist_max.2 < dist_min.2 then dist_max else dist_min
      if 1 < dmin.2 then [⟨pos, dmin.1, track, other⟩] else []

/-- The declared links of one track, in the order `find_failed_connections`
visits them: the predecessor (checked against the start position), then
the successors (checked against the end position). -/
def linkTargets (M : MathModel) (track : Track) : List (Int × Vec3) :=
  (match track.ids.prev with
   | some p => [(p, (track.shape.startCP M).pos)]
   | none => []) ++
  (match track.ids.next with
   | .none => []
   | .one i => [(i, (track.shape.endCP M).pos)]
   | .two i j => [(i, (track.shape.endCP M).pos), (j, (track.shape.endCP M).pos)])

/-- `find_failed_connections` (`parse.rs`), with the mutable vector of
pushed diagnostics modelled as a fold accumulator. -/
def find_failed_connections (M : MathModel) (tracks : List Track)
    (track_indexes : Int → Option Nat) : List FailedConnection :=
  tracks.foldl (fun acc t =>
    (linkTargets M t).foldl
      (fun acc2 l => acc2 ++ checkNeighbour M tracks track_indexes t l.1 l.2) acc) []

/-- `str::parse::<f32>` through the abstract model, as a fallible step. -/
def parseFloatE (M : MathModel) (s : String) : Except Err ℚ :=
  match M.parseFloat s with
  | some v => .ok v
  | none => .error (.failure "invalid float")

/-- `str::parse::<i32>` through the abstract model, as a fallible step. -/
def parseIntE (M : MathModel) (s : String) : Except Err Int :=
  match M.parseInt s with
  | some v => .ok v
  | none => .error (.failure "invalid int")

/-- Rust slice `cells[a..b]`. -/
def slice (l : List String) (a b : Nat) : List String := (l.drop a).take (b - a)

/-- `parse_position` (`parse.rs`). -/
def parse_position (M : MathModel) (cells : List String) : Except Err Vec3 :=
  if cells.length = 3 then do
    let x ← parseFloatE M (cells.getD 0 "")
    let y ← parseFloatE M (cells.getD 1 "")
    let z ← parseFloatE M (cells.getD 2 "")
    .ok ⟨x, y, z⟩
  else .error (.failure "cells.len() == 3")

/-- `parse_transform` (`parse.rs`). -/
def parse_transform (M : MathModel) (cells : List String) : Except Err Mat3 :=
  if cells.length = 3 then do
    let x_deg ← parseFloatE M (cells.getD 0 "")
    let y_deg ← parseFloatE M (cells.getD 1 "")
    let z_deg ← parseFloatE M (cells.getD 2 "")
    .ok (((Mat3.fromRotationY M (M.toRadians y_deg)).mul
      (Mat3.fromRotationZ M (M.toRadians z_deg))).mul
      (Mat3.fromRotationX M (M.toRadians x_deg)))
  else .error (.failure "cells.len() == 3")

/-- `parse_normal_track` (`parse.rs`). -/
def parse_normal_track (M : MathModel) (cells : List String) : Except Err Track :=
  if cells.length < 22 then .error (.failure "cells.len() >= 22")
  else do
    let ids ← TrackIds.parse M (cells.getD 1 "") (cells.getD 12 "") (cells.getD 11 "")
    let pos ← parse_position M (slice cells 3 6)
    let rot ← parse_transform M (slice cells 6 9)
    let start : Checkpoint := ⟨pos, rot⟩
    let length ← parseFloatE M (cells.getD 9 "")
    let radius ← parseFloatE M (cells.getD 10 "")
    let shape ← TrackShape.arc_or_straight M start radius length
    .ok (Track.new ids shape)

/-- `parse_bezier_track` (`parse.rs`). -/
def parse_bezier_track (M : MathModel) (cells : List String) : Except Err Track :=
  if cells.length < 18 then .error (.failure "cells.len() >= 18")
  else do
    let ids ← TrackIds.parse M (cells.getD 1 "") (cells.getD 16 "") (cells.getD 15 "")
    let start_pos ← parse_position M (slice cells 3 6)
    let start_to_control1 ← parse_position M (slice cells 6 9)
    let p9 ← parse_position M (slice cells 9 12)
    let start_to_end := p9.sub start_pos
    let end_to_control2 ← parse_position M (slice cells 12 15)
    let start_to_control2 := start_to_end.add end_to_control2
    let rotation := Mat3.identity
    let control1 := start_pos.add (rotation.mulVec start_to_control1)
    let control2 := start_pos.add (rotation.mulVec start_to_control2)
    let end_pos := start_pos.add (rotation.mulVec start_to_end)
    .ok (Track.new ids (TrackShape.bezier M start_pos control1 control2 end_pos))

/-- The panic message of `parse_track`'s catch-all arm (`panic!()`). -/
def trackKindPanicMsg : String := "panic"

/-- `parse_track` (`parse.rs`): note the catch-all arm for an unknown
track subtype in `cells[2]` is a `panic!()`, not a recoverable error. -/
def parse_track (M : MathModel) (cells : List String) : Except Err Track :=
  if cells.length < 3 then .error (.failure "cells.len() >= 3")
  else match cells.getD 2 "" with
  | "Track" => parse_normal_track M cells
  | "BTrack" => parse_bezier_track M cells
  | _ => .error (.panicked trackKindPanicMsg)

/-- The regex `^(\d+):(\d*):(\d*)$` of `parse_subtrack_ids`. -/
def matchSubtrackFormat (part : String) : Option (String × String × String) :=
  match part.splitOn ":" with
  | [a, b, c] =>
    if a ≠ "" && a.all Char.isDigit && b.all Char.isDigit && c.all Char.isDigit then
      some (a, b, c)
    else none
  | _ => none

/-- `parse_subtrack_ids` (`parse.rs`). -/
def parse_subtrack_ids (M : MathModel) (cell : String) : Except Err (List TrackIds) :=
  ((cell.splitOn ",").filter (fun p => !p.isEmpty)).mapM (fun part =>
    match matchSubtrackFormat part with
    | some (o, p, n) => TrackIds.parse M o p n
    | none => Except.error (Err.failure "Invalid subtrack ID format"))

/-- `parse_track_structure` (`parse.rs`); the static `TRACK_STRUCTURES`
catalog (external configuration data per spec §4.4) is passed in as a
read-only lookup. -/
def parse_track_structure (M : MathModel) (catalog : String → Option TrackStructure)
    (cells : List String) : Except Err Switch :=
  if cells.length < 19 then .error (.failure "cells.len() >= 19")
  else do
    let id ← parseIntE M (cells.getD 1 "")
    let pos ← parse_position M (slice cells 3 6)
    let rot ← parse_transform M (slice cells 6 9)
    let start : Checkpoint := ⟨pos, rot⟩
    let structure_name ← match (cells.getD 2 "").splitOn "," with
      | [] => Except.error (Err.failure "Track structure name is missing")
      | n :: _ => Except.ok n
    let subtracks ← parse_subtrack_ids M (cells.getD 9 "")
    let tracks ← match catalog structure_name with
      | some (.fork f) => build_fork_switch M start f subtracks structure_name
      | some (.slip s) => build_slip_switch M start s subtracks structure_name
      | some (.crossing c) => build_crossing M start c subtracks structure_name
      | none => Except.error (Err.failure "Unknown switch type")
    .ok ⟨id, tracks⟩

/-- The section-skipping state of the line loop (`State` in `parse.rs`). -/
inductive LoopMode where
  | default
  | route
  | terrainGroup
deriving DecidableEq, Repr

/-- The mutable state of `parse`'s line loop. -/
structure LoopState where
  mode : LoopMode
  tracks : List Track
deriving Repr

/-- One iteration of `parse`'s line loop. Recoverable per-row errors
are caught (the row is dropped, matching the `Err(e) => println!` arms);
panics propagate and abort the run. -/
def parse_line (M : MathModel) (catalog : String → Option TrackStructure)
    (ls : LoopState) (line : String) : Except Err LoopState :=
  if line.isEmpty then .ok ls else
  let cells := line.splitOn ";"
  let row_kind := cells.headD ""
  match ls.mode with
  | .default =>
    match row_kind with
    | "Route" => .ok { ls with mode := .route }
    | "TerrainGroup" => .ok { ls with mode := .terrainGroup }
    | "Track" =>
      (match parse_track M cells with
       | .ok track => .ok { ls with tracks := ls.tracks ++ [track] }
       | .error (.failure _) => .ok ls
       | .error (.panicked m) => .error (.panicked m))
    | "TrackStructure" =>
      (match parse_track_structure M catalog cells with
       | .ok sw => .ok { ls with tracks := ls.tracks ++ sw.tracks }
       | .error (.failure _) => .ok ls
       | .error (.panicked m) => .error (.panicked m))
    | "TrackObject" | "Misc" | "Fence" | "Wires" | "TerrainPoint" | "MiscGroup"
    | "EndMiscGroup" | "SSPController" | "SSPRepeater" | "scv029" | "shv001"
    | "WorldRotation" | "WorldTranslation" | "MainCamera" | "CameraHome" => .ok ls
    | _ => .ok ls
  | .route =>
    if row_kind = "EndRoute" then .ok { ls with mode := .default } else .ok ls
  | .terrainGroup =>
    if row_kind = "EndTerrainGroup" then .ok { ls with mode := .default } else .ok ls

/-- The id→index map built by `parse`: `HashMap::insert` in iteration
order, so a duplicate id keeps the last index (the duplicate is only
logged). -/
def buildTrackIndexes (tracks : List Track) : Int → Option Nat :=
  tracks.enum.foldl (fun m p => fun q => if q = p.2.ids.own then some p.1 else m q)
    (fun _ => none)

/-- `parse` (`parse.rs`): the whole pipeline over the input lines. -/
def parse (M : MathModel) (catalog : String → Option TrackStructure)
    (lines : List String) : Except Err ParseResult := do
  let ls ← lines.foldlM (parse_line M catalog) ⟨LoopMode.default, []⟩
  let track_indexes := buildTrackIndexes ls.tracks
  let failed_connections := find_failed_connections M ls.tracks track_indexes
  .ok ⟨ls.tracks, track_indexes, failed_connections⟩

/-! ## Concrete fixtures for witnesses and counterexamples -/

/-- A trivial concrete instantiation of the abstract numeric model,
used to evaluate the embedded code on concrete inputs. -/
def M0 : MathModel where
  cos := fun _ => 1
  sin := fun _ => 0
  atan := fun _ => 0
  sqrt := fun _ => 0
  toRadians := fun _ => 0
  pi := 0
  moveByAngle := fun _ rot pos _ => ⟨pos, rot⟩
  bezierLength := fun _ _ _ _ => 0
  parseFloat := fun _ => none
  parseInt := fun _ => none

/-- Origin checkpoint with the identity orientation. -/
def cp0 : Checkpoint := ⟨⟨0, 0, 0⟩, Mat3.identity⟩

/-! ## Claim C1 — the Straight invariant across the three constructors -/

/-- The invariant claimed for every `Straight` value: non-negative
stored length, and end = start.position + start.rotation · (length
along the local forward axis). -/
def straightClaimInvariant : TrackShape → Bool
  | .Straight start end_pos length =>
    decide (0 ≤ length) &&
      (end_pos == start.pos.add ((start.rotation.scale length).mulVec Vec3.Z))
  | _ => true

/-- **C1, counterexample.** `straight_around_point` at offsets (0, 1)
from the origin produces a `Straight` whose stored length is the start
offset `0`, yet whose end position is one unit forward of its start:
the claimed invariant fails. -/
theorem c1_counterexample :
    (TrackShape.straight_around_point cp0 0 1).map straightClaimInvariant
      = Except.ok false := by
  with_unfolding_all rfl

/-- **C1, amended.** Only `straight` establishes the claimed invariant:
its stored length is the non-negative argument and its end position is
start + rotation·(length·Z). `straight_around_point` places its start
and end at the two offsets along the pose's forward axis but stores the
*start offset* in the length field, and `straight_between` stores the
two given endpoints with the distance between them as length, so
neither establishes the claimed end-position equation. -/
theorem c1_straight_constructors (M : MathModel) :
    (∀ (start : Checkpoint) (length : ℚ) (sh : TrackShape),
      TrackShape.straight start length = .ok sh →
      0 ≤ length ∧
        sh = .Straight start (start.pos.add ((start.rotation.scale length).mulVec Vec3.Z)) length)
    ∧ (∀ (point : Checkpoint) (so eo : ℚ) (sh : TrackShape),
      TrackShape.straight_around_point point so eo = .ok sh →
      sh = .Straight ⟨point.pos.add ((point.rotation.scale so).mulVec Vec3.Z), point.rotation⟩
        (point.pos.add ((point.rotation.scale eo).mulVec Vec3.Z)) so)
    ∧ (∀ (s e : Vec3) (rot : Mat3),
      TrackShape.straight_between M s e rot = .Straight ⟨s, rot⟩ e ((e.sub s).length M)) := by
  refine ⟨?_, ?_, ?_⟩
  · intro start length sh h
    unfold TrackShape.straight at h
    by_cases hc : 0 ≤ length
    · rw [if_pos hc] at h
      injection h with h
      exact ⟨hc, h.symm⟩
    · rw [if_neg hc] at h
      exact Except.noConfusion h
  · intro point so eo sh h
    unfold TrackShape.straight_around_point at h
    by_cases hc : 0 ≤ eo - so
    · simp only [if_pos hc] at h
      injection h with h
      exact h.symm
    · simp only [if_neg hc] at h
      exact Except.noConfusion h
  · intro s e rot
    rfl

/-- Shape returned by `straight` on the witness input. -/
def c1sh : TrackShape := ((TrackShape.straight cp0 2).toOption).getD (TrackShape.Point cp0)

/-- **C1, witness.** The amended theorem applied to `straight cp0 2`. -/
theorem c1_witness :
    0 ≤ (2 : ℚ) ∧
      c1sh = .Straight cp0 (cp0.pos.add ((cp0.rotation.scale 2).mulVec Vec3.Z)) 2 :=
  (c1_straight_constructors M0).1 cp0 2 c1sh rfl

/-! ## Claim C7 — `straight_around_point` failure mode -/

/-- **C7, counterexample.** With `end_offset < start_offset` the
constructor fails by *panic* (the `assert!`), which is not a
recoverable per-row error: `Err.isRecoverable` is false for it. -/
theorem c7_counterexample :
    TrackShape.straight_around_point cp0 1 0
        = Except.error (Err.panicked "end_offset must be greater than start_offset")
      ∧ (Err.panicked "end_offset must be greater than start_offset").isRecoverable = false := by
  exact ⟨by with_unfolding_all rfl, rfl⟩

/-- **C7, amended.** For `end_offset < start_offset` the constructor
panics (assertion failure, aborting the run) rather than returning a
recoverable error; for `end_offset ≥ start_offset` it returns a
Straight whose start and end lie at the two offsets from the pose along
its local forward axis. -/
theorem c7_straight_around_point (M : MathModel) (point : Checkpoint) (so eo : ℚ) :
    (eo < so →
      TrackShape.straight_around_point point so eo
        = .error (.panicked "end_offset must be greater than start_offset"))
    ∧ (so ≤ eo →
      (TrackShape.straight_around_point point so eo).map
          (fun sh => ((sh.startCP M).pos, (sh.endCP M).pos))
        = .ok (point.pos.add ((point.rotation.scale so).mulVec Vec3.Z),
            point.pos.add ((point.rotation.scale eo).mulVec Vec3.Z))) := by
  constructor
  · intro hlt
    unfold TrackShape.straight_around_point
    rw [if_neg (by linarith)]
  · intro hle
    unfold TrackShape.straight_around_point
    rw [if_pos (by linarith)]
    rfl

/-- **C7, witness.** The amended theorem applied at offsets (0, 1). -/
theorem c7_witness :
    (0 : ℚ) ≤ 1 ∧
      (TrackShape.straight_around_point cp0 0 1).map
          (fun sh => ((sh.startCP M0).pos, (sh.endCP M0).pos))
        = .ok (cp0.pos.add ((cp0.rotation.scale 0).mulVec Vec3.Z),
            cp0.pos.add ((cp0.rotation.scale 1).mulVec Vec3.Z)) :=
  ⟨by norm_num, (c7_straight_around_point M0 cp0 0 1).2 (by norm_num)⟩

/-! ## Claim C6 — `arc_or_straight` dispatch and the arc round trip -/

/-- **C6, counterexample.** The claim quantifies over *every* length,
but for radius 0 and a negative length `arc_or_straight` does not
return a Straight: it panics through `straight`'s assertion. -/
theorem c6_counterexample :
    TrackShape.arc_or_straight M0 cp0 0 (-1)
      = Except.error (Err.panicked "Length must be non-negative") := by
  rfl

/-- **C6, amended.** For radius 0, `arc_or_straight` delegates to
`straight` (hence returns a Straight exactly when the length is
non-negative, and panics otherwise); for any non-zero radius it returns
the Arc over the rotated circle built from the start rotation, with
stored angle `length / |radius|`, and that Arc's `end()` is exactly the
pose obtained by sweeping the stored angle from the start position via
the stored circle — which is also the stored end checkpoint. -/
theorem c6_arc_or_straight (M : MathModel) (start : Checkpoint) (radius length : ℚ) :
    (radius = 0 →
      TrackShape.arc_or_straight M start radius length = TrackShape.straight start length)
    ∧ (radius ≠ 0 →
      TrackShape.arc_or_straight M start radius length
          = .ok (.Arc start.pos
              ((RotatedCircle.new radius start.rotation).move_by_angle M start.pos (length / |radius|))
              length (length / |radius|) (RotatedCircle.new radius start.rotation))
        ∧ ∀ start_pos endcp len ang rc,
            TrackShape.arc_or_straight M start radius length = .ok (.Arc start_pos endcp len ang rc) →
            ang = length / |radius|
              ∧ (TrackShape.Arc start_pos endcp len ang rc).endCP M = rc.move_by_angle M start_pos ang
              ∧ endcp = rc.move_by_angle M start_pos ang) := by
  constructor
  · intro h0
    unfold TrackShape.arc_or_straight
    rw [if_pos h0]
  · intro hne
    have harc : TrackShape.arc_or_straight M start radius length
        = .ok (.Arc start.pos
            ((RotatedCircle.new radius start.rotation).move_by_angle M start.pos (length / |radius|))
            length (length / |radius|) (RotatedCircle.new radius start.rotation)) := by
      unfold TrackShape.arc_or_straight
      rw [if_neg hne]
      rfl
    refine ⟨harc, ?_⟩
    intro start_pos endcp len ang rc h
    rw [harc] at h
    injection h with h
    cases h
    exact ⟨rfl, rfl, rfl⟩

/-- **C6, witness.** The amended theorem applied at radius 1, length 5. -/
theorem c6_witness :
    (1 : ℚ) ≠ 0 ∧
      TrackShape.arc_or_straight M0 cp0 1 5
        = .ok (.Arc cp0.pos
            ((RotatedCircle.new 1 cp0.rotation).move_by_angle M0 cp0.pos (5 / |(1 : ℚ)|))
            5 (5 / |(1 : ℚ)|) (RotatedCircle.new 1 cp0.rotation)) :=
  ⟨by norm_num, ((c6_arc_or_straight M0 cp0 1 5).2 (by norm_num)).1⟩

/-! ## Claim C10 — unknown neighbor ids are skipped silently -/

/-- **C10.** A declared neighbor id with no entry in the id→index map
produces no `FailedConnection` and no error: the link is skipped. -/
theorem c10_unknown_neighbour_skipped (M : MathModel) (tracks : List Track)
    (track_indexes : Int → Option Nat) (track : Track) (id : Int) (pos : Vec3)
    (h : track_indexes id = none) :
    checkNeighbour M tracks track_indexes track id pos = [] := by
  unfold checkNeighbour
  rw [h]

/-- A minimal concrete track used by validator witnesses. -/
def trackA : Track := Track.new ⟨1, none, NextIds.one 2⟩ (TrackShape.point cp0)

/-! ## Claim C2 — the connectivity validator -/

/-- Folding with list append equals prepending the accumulator. -/
theorem foldl_append_bind {α β : Type} (f : α → List β) :
    ∀ (l : List α) (acc : List β),
      l.foldl (fun a x => a ++ f x) acc = acc ++ l.flatMap f := by
  intro l
  induction l with
  | nil => intro acc; simp
  | cons x xs ih => intro acc; simp [ih, List.append_assoc]

/-- The validator's push loop decomposes into one independent check per
declared link, in visit order. -/
theorem find_failed_connections_decomp (M : MathModel) (tracks : List Track)
    (idx : Int → Option Nat) :
    find_failed_connections M tracks idx
      = tracks.flatMap (fun t => (linkTargets M t).flatMap
          (fun l => checkNeighbour M tracks idx t l.1 l.2)) := by
  unfold find_failed_connections
  suffices h : ∀ (l : List Track) (acc : List FailedConnection),
      l.foldl (fun acc t => (linkTargets M t).foldl
          (fun acc2 lk => acc2 ++ checkNeighbour M tracks idx t lk.1 lk.2) acc) acc
        = acc ++ l.flatMap (fun t => (linkTargets M t).flatMap
            (fun lk => checkNeighbour M tracks idx t lk.1 lk.2)) by
    simpa using h tracks []
  intro l
  induction l with
  | nil => intro acc; simp
  | cons t rest ih =>
    intro acc
    simp only [List.foldl_cons, List.flatMap_cons, foldl_append_bind, ih]
    simp [List.append_assoc]

/-- The code's "nearer endpoint" selection equals the minimum. -/
theorem if_lt_eq_min (ds de : ℚ) : (if de < ds then de else ds) = min ds de := by
  split
  · exact (min_eq_right (le_of_lt (by assumption))).symm
  · exact (min_eq_left (le_of_not_lt (by assumption))).symm

/-- **C2.** The validator's diagnostics are exactly the concatenation of
one check per declared link; for a link whose neighbor id resolves to a
track, no `FailedConnection` is emitted when the minimum of the squared
planar distances from the endpoint to the neighbor's two endpoints is
at most 1, and exactly one is emitted — carrying the endpoint and the
nearer neighbor endpoint — when it exceeds 1. All functions are total,
so processing never halts. -/
theorem c2_validator_tolerance (M : MathModel) :
    (∀ tracks idx,
      find_failed_connections M tracks idx
        = tracks.flatMap (fun t => (linkTargets M t).flatMap
            (fun l => checkNeighbour M tracks idx t l.1 l.2)))
    ∧ (∀ (tracks : List Track) (idx : Int → Option Nat) (track other : Track)
        (id : Int) (pos : Vec3) (i : Nat),
        idx id = some i → tracks.get? i = some other →
        (min (sqDistXZ (other.shape.startCP M).pos pos) (sqDistXZ (other.shape.endCP M).pos pos) ≤ 1 →
          checkNeighbour M tracks idx track id pos = []) ∧
        (1 < min (sqDistXZ (other.shape.startCP M).pos pos) (sqDistXZ (other.shape.endCP M).pos pos) →
          checkNeighbour M tracks idx track id pos
            = [⟨pos,
                if sqDistXZ (other.shape.endCP M).pos pos < sqDistXZ (other.shape.startCP M).pos pos
                then (other.shape.endCP M).pos else (other.shape.startCP M).pos,
                track, other⟩])) := by
  refine ⟨find_failed_connections_decomp M, ?_⟩
  intro tracks idx track other id pos i hidx hget
  unfold checkNeighbour
  rw [hidx]
  simp only [hget]
  by_cases hc : sqDistXZ (other.shape.endCP M).pos pos < sqDistXZ (other.shape.startCP M).pos pos
  · rw [min_eq_right (le_of_lt hc)]
    constructor
    · intro hle
      simp [hc, not_lt_of_le hle]
    · intro hgt
      simp [hc, hgt]
  · rw [min_eq_left (le_of_not_lt hc)]
    constructor
    · intro hle
      simp [hc, not_lt_of_le hle]
    · intro hgt
      simp [hc, hgt]

/-- Second concrete track for the validator witness: 10 units away. -/
def trackB : Track := Track.new ⟨2, none, NextIds.none⟩ (TrackShape.point ⟨⟨10, 0, 0⟩, Mat3.identity⟩)

/-- Concrete track list for the validator witness. -/
def tracks2 : List Track := [trackA, trackB]

/-- Concrete id→index map for the validator witness. -/
def idx2 : Int → Option Nat := fun i => if i = 1 then some 0 else if i = 2 then some 1 else none

/-- **C2, witness.** A synthetic pair offset by 10 units produces
exactly one diagnostic referencing the nearer neighbor endpoint. -/
theorem c2_witness :
    idx2 2 = some 1 ∧ tracks2.get? 1 = some trackB ∧
      checkNeighbour M0 tracks2 idx2 trackA 2 ⟨0, 0, 0⟩
        = [⟨⟨0, 0, 0⟩, ⟨10, 0, 0⟩, trackA, trackB⟩] := by
  have h := ((c2_validator_tolerance M0).2 tracks2 idx2 trackA trackB 2 ⟨0, 0, 0⟩ 1
    (by with_unfolding_all rfl) (by with_unfolding_all rfl)).2
    (by with_unfolding_all decide)
  exact ⟨by with_unfolding_all rfl, by with_unfolding_all rfl,
    by rw [h]; with_unfolding_all rfl⟩

/-! ## Claim C3 — the fork builder -/

/-- **C3.** An accepted fork row yields exactly 5 tracks when
`added_length = 0` and exactly 7 when `added_length > 0`; the first
output is a zero-extent Point at the anchor whose two successors are
the own ids of the two curve tracks (outputs 1 and 2); and the last two
outputs are Point tracks tagged with the structure name at which the
two branches' successor chains (curve, then extension when present)
terminate. -/
theorem c3_build_fork_switch (M : MathModel) (start : Checkpoint) (fork : ForkSwitch)
    (subtracks : List TrackIds) (name : String) (ts : List Track)
    (h : build_fork_switch M start fork subtracks name = .ok ts) :
    ((fork.added_length = 0 → ts.length = 5) ∧ (0 < fork.added_length → ts.length = 7))
    ∧ ∃ t0 c1 c2, ts.get? 0 = some t0 ∧ ts.get? 1 = some c1 ∧ ts.get? 2 = some c2 ∧
        t0.shape = TrackShape.point start ∧
        t0.ids.next = NextIds.two c1.ids.own c2.ids.own ∧
        ∃ e1 e2, ts.get? (ts.length - 2) = some e1 ∧ ts.get? (ts.length - 1) = some e2 ∧
          e1.end_for_structure = some name ∧ e2.end_for_structure = some name ∧
          (∃ p, e1.shape = TrackShape.Point p) ∧ (∃ q, e2.shape = TrackShape.Point q) ∧
          (¬ 0 < fork.added_length →
            c1.ids.next = NextIds.one e1.ids.own ∧ c2.ids.next = NextIds.one e2.ids.own) ∧
          (0 < fork.added_length → ∃ x1 x2, ts.get? 3 = some x1 ∧ ts.get? 4 = some x2 ∧
            c1.ids.next = NextIds.one x1.ids.own ∧ x1.ids.next = NextIds.one e1.ids.own ∧
            c2.ids.next = NextIds.one x2.ids.own ∧ x2.ids.next = NextIds.one e2.ids.own) := by
  rcases subtracks with _ | ⟨s0, _ | ⟨fc0, _ | ⟨sc0, rest⟩⟩⟩
  · simp [build_fork_switch] at h
  · simp [build_fork_switch] at h
  · simp [build_fork_switch] at h
  · unfold build_fork_switch at h
    simp only [bind, Except.bind] at h
    repeat' (first | (exact Except.noConfusion h) | (split at h))
    all_goals (injection h with h; subst h)
    · exact ⟨⟨fun h0 => absurd (h0 ▸ ‹0 < fork.added_length›) (lt_irrefl 0), fun _ => rfl⟩,
        _, _, _, rfl, rfl, rfl, rfl, rfl, _, _, rfl, rfl, rfl, rfl, ⟨_, rfl⟩, ⟨_, rfl⟩,
        fun hn => absurd ‹0 < fork.added_length› hn,
        fun _ => ⟨_, _, rfl, rfl, rfl, rfl, rfl, rfl⟩⟩
    · exact ⟨⟨fun _ => rfl, fun hlt => absurd hlt ‹¬0 < fork.added_length›⟩,
        _, _, _, rfl, rfl, rfl, rfl, rfl, _, _, rfl, rfl, rfl, rfl, ⟨_, rfl⟩, ⟨_, rfl⟩,
        fun _ => ⟨rfl, rfl⟩,
        fun hlt => absurd hlt ‹¬0 < fork.added_length›⟩

/-- Concrete subtrack ids for the fork witness (a 5-id fork row). -/
def c3subs : List TrackIds :=
  [⟨10, none, NextIds.none⟩, ⟨11, none, NextIds.none⟩, ⟨12, none, NextIds.none⟩,
   ⟨13, none, NextIds.none⟩, ⟨14, none, NextIds.none⟩]

/-- A concrete fork catalog record with no added length. -/
def c3fork : ForkSwitch := ⟨0, 0, 1, 9, 0⟩

/-- Output of the fork builder on the witness row. -/
def c3ts : List Track := (build_fork_switch M0 cp0 c3fork c3subs "F").toOption.getD []

/-- **C3, witness.** The theorem applied to a concrete accepted
5-subtrack fork row with `added_length = 0`. -/
theorem c3_witness : c3ts.length = 5 :=
  ((c3_build_fork_switch M0 cp0 c3fork c3subs "F" c3ts (by with_unfolding_all rfl)).1.1) rfl

/-! ## Claim C5 — the crossing builder -/

/-- **C5, counterexample.** The builder passes the row-declared id
records through unchanged, so an accepted crossing row whose first
subtrack declares the second subtrack's id as its predecessor yields an
output track that *does* reference the other output track: the claim's
"neither references the other" fails. Here the first output track (own
id 1) references id 2, the second output track's own id. -/
theorem c5_counterexample :
    (build_crossing M0 cp0 ⟨10, 9⟩ [⟨1, some 2, NextIds.none⟩, ⟨2, none, NextIds.none⟩] "X").map
        (fun ts => (ts.map (fun t => t.ids.own), ts.map (fun t => t.refsId 2)))
      = .ok ([1, 2], [true, false]) := by
  with_unfolding_all rfl

/-- **C5, amended.** An accepted crossing row (exactly 2 subtrack ids)
yields exactly 2 tracks, both tagged with the structure name as
structure ends, whose id records are exactly the two declared subtrack
records, unchanged; the builder itself adds no predecessor/successor
link between them, so one output references the other only if the row
itself declared that reference. -/
theorem c5_build_crossing (M : MathModel) (start : Checkpoint) (crossing : Crossing)
    (subtracks : List TrackIds) (name : String) (ts : List Track)
    (h : build_crossing M start crossing subtracks name = .ok ts) :
    ts.length = 2 ∧
    ∃ a b t0 t1, subtracks = [a, b] ∧ ts = [t0, t1] ∧ t0.ids = a ∧ t1.ids = b ∧
      t0.end_for_structure = some name ∧ t1.end_for_structure = some name ∧
      (a.prev ≠ some b.own → a.next.mem b.own = false → t0.refsId b.own = false) ∧
      (b.prev ≠ some a.own → b.next.mem a.own = false → t1.refsId a.own = false) := by
  rcases subtracks with _ | ⟨a, _ | ⟨b, _ | ⟨c, rest⟩⟩⟩
  · exact Except.noConfusion h
  · exact Except.noConfusion h
  · simp only [build_crossing, bind, Except.bind] at h
    split at h
    · exact Except.noConfusion h
    · split at h
      · exact Except.noConfusion h
      · injection h with h
        subst h
        refine ⟨rfl, a, b, _, _, rfl, rfl, rfl, rfl, rfl, rfl, ?_, ?_⟩
        · intro hprev hnext
          simp [Track.refsId, Track.new_structure_end, hnext, hprev]
        · intro hprev hnext
          simp [Track.refsId, Track.new_structure_end, hnext, hprev]
  · exact Except.noConfusion h

/-- Output of the crossing builder on the clean witness row. -/
def c5ts : List Track :=
  (build_crossing M0 cp0 ⟨10, 9⟩ [⟨1, none, NextIds.none⟩, ⟨2, none, NextIds.none⟩] "X").toOption.getD []

/-- **C5, witness.** The amended theorem applied to a clean concrete
crossing row. -/
theorem c5_witness :
    build_crossing M0 cp0 ⟨10, 9⟩ [⟨1, none, NextIds.none⟩, ⟨2, none, NextIds.none⟩] "X"
        = .ok c5ts ∧ c5ts.length = 2 :=
  ⟨by with_unfolding_all rfl,
    (c5_build_crossing M0 cp0 ⟨10, 9⟩ [⟨1, none, NextIds.none⟩, ⟨2, none, NextIds.none⟩]
      "X" c5ts (by with_unfolding_all rfl)).1⟩

/-- **C10, witness.** The theorem applied to an empty index map. -/
theorem c10_witness :
    (fun (_ : Int) => (none : Option Nat)) 2 = none ∧
      checkNeighbour M0 [trackA] (fun _ => none) trackA 2 ⟨0, 0, 0⟩ = [] :=
  ⟨rfl, c10_unknown_neighbour_skipped M0 [trackA] (fun _ => none) trackA 2 ⟨0, 0, 0⟩ rfl⟩

/-! ## Claim C8 — the per-row fault boundary -/

/-- **C8.** The claim "no input row can make the whole run fatal" fails:
a `Track` row whose subtype cell (`cells[2]`) is neither `Track` nor
`BTrack` hits `parse_track`'s catch-all `panic!()`, which the per-row
catch does not recover, so the whole `parse` run aborts — for every
numeric model and every catalog. A file with no successfully parsed
rows does, as claimed, yield an empty result. -/
theorem c8_parse_panics_on_unknown_track_kind (M : MathModel)
    (catalog : String → Option TrackStructure) :
    parse M catalog ["Track;1;Foo"] = .error (.panicked trackKindPanicMsg)
    ∧ (parse M catalog []).map (fun r => (r.tracks, r.failed_connections)) = .ok ([], []) :=
  ⟨by with_unfolding_all rfl, by with_unfolding_all rfl⟩

/-! ## Claim C9 — the successor-set invariant and `add_next`'s panic -/

/-- Whether an error is precisely `add_next`'s third-successor panic. -/
def Err.isAddNext (e : Err) : Bool :=
  match e with
  | .panicked m => m == TrackIds.addNextPanicMsg
  | .failure _ => false

/-- Whether a result is precisely `add_next`'s third-successor panic. -/
def isAddNextPanicE {α : Type} (r : Except Err α) : Bool :=
  match r with
  | .error e => e.isAddNext
  | .ok _ => false

/-- Compositionality of `isAddNextPanicE` over `Except` sequencing. -/
theorem isAddNextPanicE_bind {α β : Type} {x : Except Err α} {f : α → Except Err β}
    (hx : isAddNextPanicE x = false)
    (hf : ∀ a, x = .ok a → isAddNextPanicE (f a) = false) :
    isAddNextPanicE (x.bind f) = false := by
  cases x with
  | error e => exact hx
  | ok a => exact hf a rfl

theorem straight_notpanic (s : Checkpoint) (l : ℚ) :
    isAddNextPanicE (TrackShape.straight s l) = false := by
  unfold TrackShape.straight
  split <;> first | rfl | with_unfolding_all rfl

theorem saop_notpanic (p : Checkpoint) (so eo : ℚ) :
    isAddNextPanicE (TrackShape.straight_around_point p so eo) = false := by
  unfold TrackShape.straight_around_point
  dsimp only
  split <;> first | rfl | with_unfolding_all rfl

theorem arc_or_straight_notpanic (M : MathModel) (s : Checkpoint) (r l : ℚ) :
    isAddNextPanicE (TrackShape.arc_or_straight M s r l) = false := by
  unfold TrackShape.arc_or_straight
  split
  · exact straight_notpanic _ _
  · rfl

theorem idxGet_notpanic (l : List TrackIds) (i : Nat) :
    isAddNextPanicE (idxGet l i) = false := by
  unfold idxGet
  split <;> first | rfl | with_unfolding_all rfl

theorem removeAt_notpanic (l : List TrackIds) (i : Nat) :
    isAddNextPanicE (removeAt l i) = false := by
  unfold removeAt
  split <;> first | rfl | with_unfolding_all rfl

theorem slip_removals_notpanic (slip : SlipSwitch) (subs0 : List TrackIds) :
    isAddNextPanicE (slip_removals slip subs0) = false := by
  unfold slip_removals
  split
  · rfl
  · apply isAddNextPanicE_bind (removeAt_notpanic _ _)
    rintro ⟨ex, s1⟩ -
    apply isAddNextPanicE_bind (removeAt_notpanic _ _)
    rintro ⟨en, s2⟩ -
    rfl
  · apply isAddNextPanicE_bind (removeAt_notpanic _ _)
    rintro ⟨ex, s1⟩ -
    apply isAddNextPanicE_bind (removeAt_notpanic _ _)
    rintro ⟨en, s2⟩ -
    rfl
  · apply isAddNextPanicE_bind (removeAt_notpanic _ _)
    rintro ⟨se2, s1⟩ -
    apply isAddNextPanicE_bind (removeAt_notpanic _ _)
    rintro ⟨fe2, s2⟩ -
    apply isAddNextPanicE_bind (removeAt_notpanic _ _)
    rintro ⟨sn2, s3⟩ -
    apply isAddNextPanicE_bind (removeAt_notpanic _ _)
    rintro ⟨fn2, s4⟩ -
    rfl

theorem build_straight_path_notpanic (M : MathModel) (name : String)
    (subs : List TrackIds) (ohl tb te : ℚ) (c crv : Checkpoint) (i0 i1 i2 i3 i4 : Nat) :
    isAddNextPanicE (build_straight_path M name subs ohl tb te c crv i0 i1 i2 i3 i4) = false := by
  unfold build_straight_path
  apply isAddNextPanicE_bind (idxGet_notpanic _ _); rintro a0 -
  apply isAddNextPanicE_bind (idxGet_notpanic _ _); rintro a4 -
  apply isAddNextPanicE_bind (idxGet_notpanic _ _); rintro a1 -
  apply isAddNextPanicE_bind (idxGet_notpanic _ _); rintro a3 -
  apply isAddNextPanicE_bind (idxGet_notpanic _ _); rintro a2 -
  apply isAddNextPanicE_bind (saop_notpanic _ _ _); rintro s0 -
  apply isAddNextPanicE_bind (saop_notpanic _ _ _); rintro s1 -
  apply isAddNextPanicE_bind (saop_notpanic _ _ _); rintro s2 -
  apply isAddNextPanicE_bind (saop_notpanic _ _ _); rintro s3 -
  apply isAddNextPanicE_bind (saop_notpanic _ _ _); rintro s4 -
  rfl

/-- `add_next` on a one-element successor set succeeds. -/
theorem add_next_one_eq (ids : TrackIds) (a x : Int) (h : ids.next = NextIds.one a) :
    ids.add_next x = .ok { ids with next := NextIds.two a x } := by
  unfold TrackIds.add_next
  rw [h]

/-- A successfully built through path has exactly one successor stored
on its two outer tracks (slots 0 and 4). -/
theorem build_straight_path_one {M : MathModel} {name : String}
    {subs : List TrackIds} {ohl tb te : ℚ} {c crv : Checkpoint} {i0 i1 i2 i3 i4 : Nat}
    {p : Path5}
    (h : build_straight_path M name subs ohl tb te c crv i0 i1 i2 i3 i4 = .ok p) :
    (∃ a, p.t0.ids.next = NextIds.one a) ∧ (∃ b, p.t4.ids.next = NextIds.one b) := by
  unfold build_straight_path at h
  simp only [bind, Except.bind] at h
  repeat' (first | (exact Except.noConfusion h) | (split at h))
  injection h with h
  subst h
  exact ⟨⟨_, rfl⟩, ⟨_, rfl⟩⟩

theorem build_slip_notpanic (M : MathModel) (slip : SlipSwitch) (cl : ℚ) (rot : Mat3)
    (subs : List TrackIds) (ci : Nat) (sids : Option (TrackIds × TrackIds))
    (ep xp : Path5) (neg : Bool)
    (hep : ∃ a, ep.t0.ids.next = NextIds.one a) (hxp : ∃ b, xp.t4.ids.next = NextIds.one b) :
    isAddNextPanicE (build_slip M slip cl rot subs ci sids ep xp neg) = false := by
  obtain ⟨a, ha⟩ := hep
  obtain ⟨b, hb⟩ := hxp
  unfold build_slip
  apply isAddNextPanicE_bind (idxGet_notpanic _ _); rintro cids -
  cases sids with
  | none => rfl
  | some pr =>
    obtain ⟨e0, x0⟩ := pr
    apply isAddNextPanicE_bind (arc_or_straight_notpanic _ _ _ _); rintro ec -
    apply isAddNextPanicE_bind (arc_or_straight_notpanic _ _ _ _); rintro cc -
    apply isAddNextPanicE_bind (arc_or_straight_notpanic _ _ _ _); rintro xc -
    dsimp only
    rw [add_next_one_eq _ _ _ ha, add_next_one_eq _ _ _ hb]
    rfl

/-- `build_slip` only rewrites slot 0 of the enter path and slot 4 of
the exit path. -/
theorem build_slip_frame {M : MathModel} {slip : SlipSwitch} {cl : ℚ} {rot : Mat3}
    {subs : List TrackIds} {ci : Nat} {sids : Option (TrackIds × TrackIds)}
    {ep xp : Path5} {neg : Bool} {l : List Track} {ep' xp' : Path5}
    (h : build_slip M slip cl rot subs ci sids ep xp neg = .ok (l, ep', xp')) :
    ep'.t4 = ep.t4 ∧ xp'.t0 = xp.t0 := by
  unfold build_slip at h
  simp only [bind, Except.bind] at h
  repeat' (first | (exact Except.noConfusion h) | (split at h))
  all_goals
    (injection h with h
     injection h with h1 h2
     injection h2 with h2 h3
     subst h2
     subst h3
     exact ⟨rfl, rfl⟩)

/-- **C9.** The successor set of every track is bounded by 2 by
construction; `add_next` succeeds whenever fewer than two successors
are stored; and none of the three structure builders can ever return
`add_next`'s third-successor panic — in particular the slip builder's
rewiring of the through-path ends always finds at most one stored
successor there. -/
theorem c9_add_next_unreachable :
    (∀ t : Track, t.ids.next.size ≤ 2)
    ∧ (∀ (ids : TrackIds) (x : Int), ids.next.size ≤ 1 → ∃ ids2, ids.add_next x = .ok ids2)
    ∧ (∀ (M : MathModel) (start : Checkpoint) (fork : ForkSwitch)
        (subs : List TrackIds) (name : String),
        isAddNextPanicE (build_fork_switch M start fork subs name) = false)
    ∧ (∀ (M : MathModel) (start : Checkpoint) (slip : SlipSwitch)
        (subs : List TrackIds) (name : String),
        isAddNextPanicE (build_slip_switch M start slip subs name) = false)
    ∧ (∀ (M : MathModel) (start : Checkpoint) (crossing : Crossing)
        (subs : List TrackIds) (name : String),
        isAddNextPanicE (build_crossing M start crossing subs name) = false) := by
  refine ⟨?_, ?_, ?_, ?_, ?_⟩
  · intro t
    cases t.ids.next <;> simp [NextIds.size]
  · intro ids x h
    cases hn : ids.next with
    | none => exact ⟨_, by unfold TrackIds.add_next; rw [hn]⟩
    | one a => exact ⟨_, by unfold TrackIds.add_next; rw [hn]⟩
    | two a b => simp [hn, NextIds.size] at h
  · intro M start fork subs name
    unfold build_fork_switch
    split
    · rfl
    · split
      · split
        · split
          · split
            · apply isAddNextPanicE_bind (arc_or_straight_notpanic _ _ _ _); rintro v1 -
              apply isAddNextPanicE_bind (arc_or_straight_notpanic _ _ _ _); rintro v2 -
              apply isAddNextPanicE_bind (straight_notpanic _ _); rintro v3 -
              apply isAddNextPanicE_bind (straight_notpanic _ _); rintro v4 -
              rfl
            · rfl
          · rfl
        · split
          · split
            · apply isAddNextPanicE_bind (arc_or_straight_notpanic _ _ _ _); rintro v1 -
              apply isAddNextPanicE_bind (arc_or_straight_notpanic _ _ _ _); rintro v2 -
              rfl
            · rfl
          · rfl
      · with_unfolding_all rfl
  · intro M start slip subs name
    unfold build_slip_switch
    dsimp only
    by_cases hlen : subs.length
        = 12 + (if slip.left_slip = true then 2 else 0) + (if slip.right_slip = true then 2 else 0)
    · rw [if_pos hlen]
      apply isAddNextPanicE_bind (slip_removals_notpanic _ _)
      rintro ⟨lids, rids, subs2⟩ -
      apply isAddNextPanicE_bind (build_straight_path_notpanic _ _ _ _ _ _ _ _ _ _ _ _ _)
      rintro fp hfp
      apply isAddNextPanicE_bind (build_straight_path_notpanic _ _ _ _ _ _ _ _ _ _ _ _ _)
      rintro sp hsp
      apply isAddNextPanicE_bind (build_slip_notpanic _ _ _ _ _ _ _ _ _ _
        (build_straight_path_one hfp).1 (build_straight_path_one hsp).2)
      rintro ⟨l1, fp1, sp1⟩ hbs1
      have hfr := build_slip_frame hbs1
      have e1 : ∃ a, sp1.t0.ids.next = NextIds.one a := by
        rw [hfr.2]; exact (build_straight_path_one hsp).1
      have e2 : ∃ b, fp1.t4.ids.next = NextIds.one b := by
        rw [hfr.1]; exact (build_straight_path_one hfp).2
      apply isAddNextPanicE_bind (build_slip_notpanic _ _ _ _ _ _ _ _ _ _ e1 e2)
      rintro ⟨l2, sp2, fp2⟩ -
      rfl
    · rw [if_neg hlen]
      rfl
  · intro M start crossing subs name
    unfold build_crossing
    split
    · dsimp only
      apply isAddNextPanicE_bind (saop_notpanic _ _ _); rintro sbd -
      apply isAddNextPanicE_bind (saop_notpanic _ _ _); rintro sac -
      rfl
    · rfl

/-- **C9, witness.** `add_next` on a one-successor id record succeeds. -/
theorem c9_witness :
    ((⟨1, none, NextIds.one 2⟩ : TrackIds).add_next 3).toOption.isSome = true := by
  obtain ⟨ids2, h⟩ := c9_add_next_unreachable.2.1 ⟨1, none, NextIds.one 2⟩ 3 (by decide)
  rw [h]
  rfl

/-! ## Claim C4 — slip builder wiring lemmas -/

/-- `idxGet` success inverts to a list lookup. -/
theorem idxGet_ok {l : List TrackIds} {i : Nat} {x : TrackIds}
    (h : idxGet l i = .ok x) : l.get? i = some x := by
  unfold idxGet at h
  split at h
  · injection h with h
    subst h
    assumption
  · exact Except.noConfusion h

/-- A successful `add_next` keeps own and prev and records the new id
among the successors. -/
theorem add_next_ok {ids : TrackIds} {x : Int} {ids2 : TrackIds}
    (h : ids.add_next x = .ok ids2) :
    ids2.own = ids.own ∧ ids2.prev = ids.prev ∧ ids2.next.mem x = true := by
  unfold TrackIds.add_next at h
  split at h
  · injection h with h
    subst h
    exact ⟨rfl, rfl, by simp [NextIds.mem]⟩
  · injection h with h
    subst h
    exact ⟨rfl, rfl, by simp [NextIds.mem]⟩
  · exact Except.noConfusion h

/-- Identity of the ids placed on a successfully built through path:
the five subtrack records at the five indices, rewired as the code
does, with the outer tracks' declared prev hints untouched. -/
theorem build_straight_path_ok_ids {M : MathModel} {name : String}
    {subs : List TrackIds} {ohl tb te : ℚ} {c crv : Checkpoint} {i0 i1 i2 i3 i4 : Nat}
    {p : Path5}
    (h : build_straight_path M name subs ohl tb te c crv i0 i1 i2 i3 i4 = .ok p) :
    ∃ a0 a1 a2 a3 a4,
      subs.get? i0 = some a0 ∧ subs.get? i1 = some a1 ∧ subs.get? i2 = some a2 ∧
      subs.get? i3 = some a3 ∧ subs.get? i4 = some a4 ∧
      p.t0.ids = { a0 with next := NextIds.one a1.own } ∧
      p.t1.ids = { a1 with prev := some a0.own, next := NextIds.one a2.own } ∧
      p.t2.ids = { a2 with prev := some a1.own, next := NextIds.one a3.own } ∧
      p.t3.ids = { a3 with prev := some a4.own, next := NextIds.one a2.own } ∧
      p.t4.ids = { a4 with next := NextIds.one a3.own } ∧
      p.t0.end_for_structure = some name ∧ p.t4.end_for_structure = some name := by
  unfold build_straight_path at h
  simp only [bind, Except.bind] at h
  repeat' (first | (exact Except.noConfusion h) | (split at h))
  injection h with h
  subst h
  rename_i xEO aEO hEO xXO aXO hXO xET aET hET xXT aXT hXT xCR aCR hCR xs0 s0 q0 xs1 s1 q1 xs2 s2 q2 xs3 s3 q3 xs4 s4 q4
  exact ⟨aEO, aET, aCR, aXT, aXO, idxGet_ok hEO, idxGet_ok hET, idxGet_ok hCR,
    idxGet_ok hXT, idxGet_ok hXO, rfl, rfl, rfl, rfl, rfl, rfl, rfl⟩

/-- A disabled diagonal produces only the unlinked placeholder and does
not touch the paths. -/
theorem build_slip_ok_none {M : MathModel} {slip : SlipSwitch} {cl : ℚ} {rot : Mat3}
    {subs : List TrackIds} {ci : Nat} {ep xp : Path5} {neg : Bool}
    {l : List Track} {ep' xp' : Path5}
    (h : build_slip M slip cl rot subs ci none ep xp neg = .ok (l, ep', xp')) :
    ∃ cids tr, subs.get? ci = some cids ∧ l = [tr] ∧ tr.ids = cids ∧ ep' = ep ∧ xp' = xp := by
  unfold build_slip at h
  simp only [bind, Except.bind] at h
  repeat' (first | (exact Except.noConfusion h) | (split at h))
  injection h with h
  injection h with h1 h2
  injection h2 with h2 h3
  subst h1
  subst h2
  subst h3
  rename_i xc cids hc
  exact ⟨cids, _, idxGet_ok hc, rfl, rfl, rfl, rfl⟩

/-- An enabled diagonal produces the three-curve chain spliced between
the enter path's slot-0 track and the exit path's slot-4 track, and
rewrites exactly those two slots. -/
theorem build_slip_ok_some {M : MathModel} {slip : SlipSwitch} {cl : ℚ} {rot : Mat3}
    {subs : List TrackIds} {ci : Nat} {e0 x0 : TrackIds} {ep xp : Path5} {neg : Bool}
    {l : List Track} {ep' xp' : Path5}
    (h : build_slip M slip cl rot subs ci (some (e0, x0)) ep xp neg = .ok (l, ep', xp')) :
    ∃ te tc tx, l = [te, tc, tx] ∧
      te.ids.prev = some ep.t0.ids.own ∧ te.ids.next = NextIds.one tc.ids.own ∧
      tc.ids.prev = some te.ids.own ∧ tc.ids.next = NextIds.one tx.ids.own ∧
      tx.ids.prev = some tc.ids.own ∧ tx.ids.next = NextIds.one xp.t4.ids.own ∧
      ep'.t0.ids.own = ep.t0.ids.own ∧ ep'.t0.ids.next.mem te.ids.own = true ∧
      ep'.t1 = ep.t1 ∧ ep'.t2 = ep.t2 ∧ ep'.t3 = ep.t3 ∧ ep'.t4 = ep.t4 ∧
      xp'.t0 = xp.t0 ∧ xp'.t1 = xp.t1 ∧ xp'.t2 = xp.t2 ∧ xp'.t3 = xp.t3 ∧
      xp'.t4.ids.own = xp.t4.ids.own ∧ xp'.t4.ids.next.mem tx.ids.own = true := by
  unfold build_slip at h
  simp only [bind, Except.bind] at h
  repeat' (first | (exact Except.noConfusion h) | (split at h))
  injection h with h
  injection h with h1 h2
  injection h2 with h2 h3
  subst h1
  subst h2
  subst h3
  rename_i x1 cids hc x2 ec hec x3 cc hcc x4 xc hxc x5 nE hnE x6 nX hnX
  obtain ⟨hown1, hprev1, hmem1⟩ := add_next_ok hnE
  obtain ⟨hown2, hprev2, hmem2⟩ := add_next_ok hnX
  exact ⟨_, _, _, rfl, rfl, rfl, rfl, rfl, rfl, rfl, hown1, hmem1,
    rfl, rfl, rfl, rfl, rfl, rfl, rfl, rfl, hown2, hmem2⟩

/-- With both diagonals disabled the removal step is the identity. -/
theorem slip_removals_ff {slip : SlipSwitch} (hl : slip.left_slip = false)
    (hr : slip.right_slip = false) (s : List TrackIds) :
    slip_removals slip s = .ok (none, none, s) := by
  unfold slip_removals
  rw [hl, hr]

/-- An enabled left diagonal always receives a pair of removed ids. -/
theorem slip_removals_left {slip : SlipSwitch} {s s2 : List TrackIds}
    {lids rids : Option (TrackIds × TrackIds)}
    (hl : slip.left_slip = true) (h : slip_removals slip s = .ok (lids, rids, s2)) :
    ∃ p, lids = some p := by
  unfold slip_removals at h
  rw [hl] at h
  rcases hr : slip.right_slip
  all_goals rw [hr] at h
  all_goals simp only [bind, Except.bind] at h
  all_goals repeat' (first | (exact Except.noConfusion h) | (split at h))
  all_goals
    (injection h with h
     injection h with h1 h2
     subst h1
     exact ⟨_, rfl⟩)

/-- An enabled right diagonal always receives a pair of removed ids. -/
theorem slip_removals_right {slip : SlipSwitch} {s s2 : List TrackIds}
    {lids rids : Option (TrackIds × TrackIds)}
    (hr : slip.right_slip = true) (h : slip_removals slip s = .ok (lids, rids, s2)) :
    ∃ p, rids = some p := by
  unfold slip_removals at h
  rw [hr] at h
  rcases hl : slip.left_slip
  all_goals rw [hl] at h
  all_goals simp only [bind, Except.bind] at h
  all_goals repeat' (first | (exact Except.noConfusion h) | (split at h))
  all_goals
    (injection h with h
     injection h with h1 h2
     injection h2 with h2 h3
     subst h2
     exact ⟨_, rfl⟩)

/-- A disabled left diagonal receives no ids. -/
theorem slip_removals_left_none {slip : SlipSwitch} {s s2 : List TrackIds}
    {lids rids : Option (TrackIds × TrackIds)}
    (hl : slip.left_slip = false) (h : slip_removals slip s = .ok (lids, rids, s2)) :
    lids = none := by
  unfold slip_removals at h
  rw [hl] at h
  rcases hr : slip.right_slip
  all_goals rw [hr] at h
  all_goals simp only [bind, Except.bind] at h
  all_goals repeat' (first | (exact Except.noConfusion h) | (split at h))
  all_goals
    (injection h with h
     injection h with h1 h2
     subst h1
     rfl)

/-- A disabled right diagonal receives no ids. -/
theorem slip_removals_right_none {slip : SlipSwitch} {s s2 : List TrackIds}
    {lids rids : Option (TrackIds × TrackIds)}
    (hr : slip.right_slip = false) (h : slip_removals slip s = .ok (lids, rids, s2)) :
    rids = none := by
  unfold slip_removals at h
  rw [hr] at h
  rcases hl : slip.left_slip
  all_goals rw [hl] at h
  all_goals simp only [bind, Except.bind] at h
  all_goals repeat' (first | (exact Except.noConfusion h) | (split at h))
  all_goals
    (injection h with h
     injection h with h1 h2
     injection h2 with h2 h3
     subst h2
     rfl)

/-- **C4, amended.** For every accepted slip row: (a) whenever a
diagonal slip is enabled, its three curve tracks form an unbroken
prev/next id chain from the enter through-path's outer track to the
exit through-path's outer track (at the stated output positions);
(b) with both diagonals disabled, provided the row's declared subtrack
records do not themselves mention the two center ids (distinct own ids,
and outer prev hints avoiding them), the two center placeholder tracks
are not referenced by any of the ten through-path tracks, and the
center tracks reference each other only if the row declared it. -/
theorem c4_build_slip_switch (M : MathModel) (start : Checkpoint) (slip : SlipSwitch)
    (subs : List TrackIds) (name : String) (ts : List Track)
    (h : build_slip_switch M start slip subs name = .ok ts) :
    (slip.left_slip = true →
      ∃ te tc tx fp0 sp4,
        ts.get? 0 = some te ∧ ts.get? 1 = some tc ∧ ts.get? 2 = some tx ∧
        ts.get? (3 + (if slip.right_slip then 3 else 1)) = some fp0 ∧
        ts.get? (3 + (if slip.right_slip then 3 else 1) + 9) = some sp4 ∧
        fp0.ids.next.mem te.ids.own = true ∧
        te.ids.prev = some fp0.ids.own ∧ te.ids.next = NextIds.one tc.ids.own ∧
        tc.ids.prev = some te.ids.own ∧ tc.ids.next = NextIds.one tx.ids.own ∧
        tx.ids.prev = some tc.ids.own ∧ tx.ids.next = NextIds.one sp4.ids.own ∧
        sp4.ids.next.mem tx.ids.own = true)
    ∧ (slip.right_slip = true →
      ∃ te tc tx sp0 fp4,
        ts.get? (if slip.left_slip then 3 else 1) = some te ∧
        ts.get? ((if slip.left_slip then 3 else 1) + 1) = some tc ∧
        ts.get? ((if slip.left_slip then 3 else 1) + 2) = some tx ∧
        ts.get? ((if slip.left_slip then 3 else 1) + 8) = some sp0 ∧
        ts.get? ((if slip.left_slip then 3 else 1) + 7) = some fp4 ∧
        sp0.ids.next.mem te.ids.own = true ∧
        te.ids.prev = some sp0.ids.own ∧ te.ids.next = NextIds.one tc.ids.own ∧
        tc.ids.prev = some te.ids.own ∧ tc.ids.next = NextIds.one tx.ids.own ∧
        tx.ids.prev = some tc.ids.own ∧ tx.ids.next = NextIds.one fp4.ids.own ∧
        fp4.ids.next.mem tx.ids.own = true)
    ∧ (slip.left_slip = false → slip.right_slip = false →
      ∀ s8 s9, subs.get? 8 = some s8 → subs.get? 9 = some s9 →
      (∀ i x, i < 12 → i ≠ 8 → i ≠ 9 → subs.get? i = some x →
        x.own ≠ s8.own ∧ x.own ≠ s9.own) →
      (∀ i x, i < 4 → subs.get? i = some x →
        x.prev ≠ some s8.own ∧ x.prev ≠ some s9.own) →
      ∃ c8 c9 restTs, ts = c8 :: c9 :: restTs ∧ c8.ids = s8 ∧ c9.ids = s9 ∧
        (∀ t ∈ restTs, t.refsId s8.own = false ∧ t.refsId s9.own = false) ∧
        (s9.prev ≠ some s8.own → s9.next.mem s8.own = false → c9.refsId s8.own = false) ∧
        (s8.prev ≠ some s9.own → s8.next.mem s9.own = false → c8.refsId s9.own = false)) := by
  unfold build_slip_switch at h
  simp only [bind, Except.bind] at h
  by_cases hlen : subs.length
      = 12 + (if slip.left_slip = true then 2 else 0) + (if slip.right_slip = true then 2 else 0)
  case neg => rw [if_neg hlen] at h; exact Except.noConfusion h
  case pos =>
  rw [if_pos hlen] at h
  split at h
  case h_1 => exact Except.noConfusion h
  case h_2 =>
  rename_i x0 trip hrem
  obtain ⟨lids, rids, subs2⟩ := trip
  split at h
  case h_1 => exact Except.noConfusion h
  case h_2 =>
  rename_i x1 fp hfp
  split at h
  case h_1 => exact Except.noConfusion h
  case h_2 =>
  rename_i x2 sp hsp
  split at h
  case h_1 => exact Except.noConfusion h
  case h_2 =>
  rename_i x3 trip1 hbs1
  obtain ⟨l1, fp1, sp1⟩ := trip1
  split at h
  case h_1 => exact Except.noConfusion h
  case h_2 =>
  rename_i x4 trip2 hbs2
  obtain ⟨l2, sp2, fp2⟩ := trip2
  injection h with h
  subst h
  refine ⟨?_, ?_, ?_⟩
  · -- (a) left diagonal
    intro hl
    obtain ⟨⟨e0, x0p⟩, hpl⟩ := slip_removals_left hl hrem
    subst hpl
    obtain ⟨te, tc, tx, hl1, hteP, hteN, htcP, htcN, htxP, htxN, hfpOwn, hfpMem,
      hf1, hf2, hf3, hf4, hsA, hsB, hsC, hsD, hspOwn, hspMem⟩ := build_slip_ok_some hbs1
    subst hl1
    rcases hr : slip.right_slip with hrf | hrt
    · have hrn := slip_removals_right_none hr hrem
      subst hrn
      obtain ⟨cids, tr, hget9, hl2, htr, hsp2, hfp2⟩ := build_slip_ok_none hbs2
      subst hl2
      refine ⟨te, tc, tx, fp2.t0, sp2.t4, rfl, rfl, rfl, ?_, ?_, ?_, ?_, hteN, htcP,
        htcN, htxP, ?_, ?_⟩
      · rfl
      · rfl
      · rw [hfp2]; exact hfpMem
      · rw [hfp2, hfpOwn]; exact hteP
      · rw [hsp2, hspOwn]; exact htxN
      · rw [hsp2]; exact hspMem
    · obtain ⟨⟨e2, x2p⟩, hpr⟩ := slip_removals_right hr hrem
      subst hpr
      obtain ⟨te2, tc2, tx2, hl2, -, -, -, -, -, -, hsp2Own, hsp2Mem,
        hsE, hsF, hsG, hsH, hfp2A, hfp2B, hfp2C, hfp2D, hfp2Own, hfp2Mem⟩ :=
        build_slip_ok_some hbs2
      subst hl2
      refine ⟨te, tc, tx, fp2.t0, sp2.t4, rfl, rfl, rfl, ?_, ?_, ?_, ?_, hteN, htcP,
        htcN, htxP, ?_, ?_⟩
      · rfl
      · rfl
      · rw [hfp2A]; exact hfpMem
      · rw [hfp2A, hfpOwn]; exact hteP
      · rw [hsH, hspOwn]; exact htxN
      · rw [hsH]; exact hspMem
  · -- (a) right diagonal
    intro hr
    obtain ⟨⟨e2, x2p⟩, hpr⟩ := slip_removals_right hr hrem
    subst hpr
    obtain ⟨te2, tc2, tx2, hl2, hte2P, hte2N, htc2P, htc2N, htx2P, htx2N, hsp2Own, hsp2Mem,
      hsE, hsF, hsG, hsH, hfp2A, hfp2B, hfp2C, hfp2D, hfp2Own, hfp2Mem⟩ :=
      build_slip_ok_some hbs2
    subst hl2
    rcases hl : slip.left_slip with hlf | hlt
    · have hln := slip_removals_left_none hl hrem
      subst hln
      obtain ⟨cids, tr, hget8, hl1, htr, hfp1, hsp1⟩ := build_slip_ok_none hbs1
      subst hl1
      refine ⟨te2, tc2, tx2, sp2.t0, fp2.t4, ?_, ?_, ?_, ?_, ?_, hsp2Mem, ?_, hte2N,
        htc2P, htc2N, htx2P, ?_, hfp2Mem⟩
      · rfl
      · rfl
      · rfl
      · rfl
      · rfl
      · rw [hsp2Own]; exact hte2P
      · rw [hfp2Own]; exact htx2N
    · obtain ⟨⟨e0, x0p⟩, hpl⟩ := slip_removals_left hl hrem
      subst hpl
      obtain ⟨te, tc, tx, hl1, -, -, -, -, -, -, hfpOwn, hfpMem,
        hf1, hf2, hf3, hf4, hsA, hsB, hsC, hsD, hspOwn, hspMem⟩ := build_slip_ok_some hbs1
      subst hl1
      refine ⟨te2, tc2, tx2, sp2.t0, fp2.t4, ?_, ?_, ?_, ?_, ?_, hsp2Mem, ?_, hte2N,
        htc2P, htc2N, htx2P, ?_, hfp2Mem⟩
      · rfl
      · rfl
      · rfl
      · rfl
      · rfl
      · rw [hsp2Own]; exact hte2P
      · rw [hfp2Own]; exact htx2N
  · -- (b) both diagonals disabled
    intro hl hr s8 s9 hg8 hg9 hown hprev
    rw [slip_removals_ff hl hr subs] at hrem
    injection hrem with hrem
    injection hrem with hA hrem
    injection hrem with hB hC
    subst hA
    subst hB
    obtain ⟨c8i, tr8, hget8, hl1, htr8, hfp1, hsp1⟩ := build_slip_ok_none hbs1
    subst hl1
    obtain ⟨c9i, tr9, hget9, hl2, htr9, hsp2, hfp2⟩ := build_slip_ok_none hbs2
    subst hl2
    have efp : fp2 = fp := hfp2.trans hfp1
    have esp : sp2 = sp := hsp2.trans hsp1
    have hgets8 : subs.get? 8 = some c8i := hC ▸ hget8
    have hgets9 : subs.get? 9 = some c9i := hC ▸ hget9
    have hc8 : c8i = s8 := by rw [hgets8] at hg8; exact Option.some.inj hg8
    have hc9 : c9i = s9 := by rw [hgets9] at hg9; exact Option.some.inj hg9
    obtain ⟨a0, a4v, a6v, a10v, a2v, hga0, hga4, hga6, hga10, hga2,
      hI0, hI1, hI2, hI3, hI4, -, -⟩ := build_straight_path_ok_ids hfp
    obtain ⟨b1, b5v, b7v, b11v, b3v, hgb1, hgb5, hgb7, hgb11, hgb3,
      hJ0, hJ1, hJ2, hJ3, hJ4, -, -⟩ := build_straight_path_ok_ids hsp
    rw [← hC] at hga0 hga4 hga6 hga10 hga2 hgb1 hgb5 hgb7 hgb11 hgb3
    have f0 := hown 0 a0 (by norm_num) (by norm_num) (by norm_num) hga0
    have f4 := hown 4 a4v (by norm_num) (by norm_num) (by norm_num) hga4
    have f6 := hown 6 a6v (by norm_num) (by norm_num) (by norm_num) hga6
    have f10 := hown 10 a10v (by norm_num) (by norm_num) (by norm_num) hga10
    have f2 := hown 2 a2v (by norm_num) (by norm_num) (by norm_num) hga2
    have g1 := hown 1 b1 (by norm_num) (by norm_num) (by norm_num) hgb1
    have g5 := hown 5 b5v (by norm_num) (by norm_num) (by norm_num) hgb5
    have g7 := hown 7 b7v (by norm_num) (by norm_num) (by norm_num) hgb7
    have g11 := hown 11 b11v (by norm_num) (by norm_num) (by norm_num) hgb11
    have g3 := hown 3 b3v (by norm_num) (by norm_num) (by norm_num) hgb3
    have p0 := hprev 0 a0 (by norm_num) hga0
    have p2 := hprev 2 a2v (by norm_num) hga2
    have p1 := hprev 1 b1 (by norm_num) hgb1
    have p3 := hprev 3 b3v (by norm_num) hgb3
    rw [← hc8] at p0 p2 p1 p3 f0 f4 f6 f10 f2 g1 g5 g7 g11 g3
    rw [← hc9] at p0 p2 p1 p3 f0 f4 f6 f10 f2 g1 g5 g7 g11 g3
    refine ⟨tr8, tr9, fp2.toList ++ sp2.toList, rfl, htr8.trans hc8, htr9.trans hc9,
      ?_, ?_, ?_⟩
    · rw [efp, esp, ← hc8, ← hc9]
      intro t ht
      simp only [Path5.toList, List.mem_append, List.mem_cons, List.not_mem_nil, or_false]
        at ht
      rcases ht with (rfl | rfl | rfl | rfl | rfl) | (rfl | rfl | rfl | rfl | rfl) <;>
        constructor <;>
        simp [Track.refsId, NextIds.mem, hI0, hI1, hI2, hI3, hI4, hJ0, hJ1, hJ2, hJ3, hJ4,
          f0.1, f0.2, f4.1, f4.2, f6.1, f6.2, f10.1, f10.2, f2.1, f2.2,
          g1.1, g1.2, g5.1, g5.2, g7.1, g7.2, g11.1, g11.2, g3.1, g3.2,
          p0.1, p0.2, p2.1, p2.2, p1.1, p1.2, p3.1, p3.2]
    · intro hp hn
      simp [Track.refsId, htr9.trans hc9, hp, hn]
    · intro hp hn
      simp [Track.refsId, htr8.trans hc8, hp, hn]


/-- Adversarial slip row for the C4 counterexample: both diagonals
disabled, 12 subtracks, where the first (outer) subtrack's declared
prev hint equals the left center placeholder's own id (100). -/
def c4subs : List TrackIds :=
  [⟨1, some 100, NextIds.none⟩, ⟨2, none, NextIds.none⟩, ⟨3, none, NextIds.none⟩,
   ⟨4, none, NextIds.none⟩, ⟨5, none, NextIds.none⟩, ⟨6, none, NextIds.none⟩,
   ⟨7, none, NextIds.none⟩, ⟨8, none, NextIds.none⟩, ⟨100, none, NextIds.none⟩,
   ⟨10, none, NextIds.none⟩, ⟨11, none, NextIds.none⟩, ⟨12, none, NextIds.none⟩]

/-- **C4, counterexample.** The builder accepts the adversarial row
(correct arity is all it checks); the first output is the center
placeholder with own id 100, and the third output — the first
through-path track — *does* reference id 100 through its untouched prev
hint, so the claim's "not referenced by any other output track" fails
as stated. -/
theorem c4_counterexample :
    ((build_slip_switch M0 cp0 ⟨10, 2, 1, 1, 1, false, false⟩ c4subs "S").toOption.map
        (fun ts => ((ts.get? 0).map (fun t => t.ids.own),
          (ts.get? 2).map (fun t => t.refsId 100))))
      = some (some 100, some true) := by
  with_unfolding_all rfl

/-- Clean 14-subtrack row for the C4 witness (left diagonal enabled). -/
def c4subs14 : List TrackIds :=
  [⟨1, none, NextIds.none⟩, ⟨2, none, NextIds.none⟩, ⟨3, none, NextIds.none⟩,
   ⟨4, none, NextIds.none⟩, ⟨5, none, NextIds.none⟩, ⟨6, none, NextIds.none⟩,
   ⟨7, none, NextIds.none⟩, ⟨8, none, NextIds.none⟩, ⟨9, none, NextIds.none⟩,
   ⟨10, none, NextIds.none⟩, ⟨11, none, NextIds.none⟩, ⟨12, none, NextIds.none⟩,
   ⟨13, none, NextIds.none⟩, ⟨14, none, NextIds.none⟩]

/-- Output of the slip builder on the witness row. -/
def c4ts : List Track :=
  (build_slip_switch M0 cp0 ⟨10, 2, 1, 1, 1, true, false⟩ c4subs14 "S").toOption.getD []

/-- **C4, witness.** The amended theorem applied to a concrete accepted
left-slip row. -/
theorem c4_witness : (c4ts.get? 0).isSome = true := by
  obtain ⟨te, tc, tx, fp0, sp4, h0, -⟩ :=
    (c4_build_slip_switch M0 cp0 ⟨10, 2, 1, 1, 1, true, false⟩ c4subs14 "S" c4ts
      (by with_unfolding_all rfl)).1 rfl
  rw [h0]
  rfl

end Td2
